import Mathlib

/-!
Shallow embedding of the rituo web client's OAuth-to-Session bridge pages
(`src/app/oauth-success/page.tsx`, `src/app/login/page.tsx`) and the chat page
(`src/app/chat/page.tsx`).  Stateful browser behaviour is modelled by explicit
result records: the list of request bodies POSTed, the ordered list of
localStorage writes, the final UI status/message, and the navigation target.
JavaScript string truthiness (empty string and null are falsy) and the string
coercion of null/undefined in template literals and setItem are modelled
explicitly, since the handlers rely on them.
-/

namespace Rituo

/-- A JSON scalar as it appears in the request bodies built by the client:
a string or null (as produced by serializing a string-or-null variable). -/
inductive JsVal where
  | str : String → JsVal
  | null : JsVal
  deriving DecidableEq, Repr

/-- A flat JSON object body, as an ordered field list. -/
abbrev JsonBody := List (String × JsVal)

/-- The field names of a JSON body, in order. -/
def bodyKeys (b : JsonBody) : List String := b.map Prod.fst

/-- JavaScript truthiness of a string-or-null value: null and the empty
string are falsy. -/
def jsTruthy : Option String → Bool
  | none => false
  | some s => s ≠ ""

/-- Coercion of a string-or-null value inside a template literal:
null prints as "null". -/
def jsStr : Option String → String
  | none => "null"
  | some s => s

/-- Coercion of a possibly-undefined string passed to localStorage.setItem:
undefined is stored as the string "undefined". -/
def jsUndefStr : Option String → String
  | none => "undefined"
  | some s => s

/-- Drop leading whitespace characters from a character list. -/
def dropWhileWs : List Char → List Char
  | [] => []
  | c :: cs => if c.isWhitespace then dropWhileWs cs else c :: cs

/-- JavaScript String.prototype.trim: strip whitespace from both ends of the
string.  (Defined by structural recursion on the character list so that it
evaluates on concrete inputs.) -/
def jsTrim (s : String) : String :=
  String.mk ((dropWhileWs (dropWhileWs s.data).reverse).reverse)

/-- The query parameters read by the oauth-success page from the callback URL
(each is string-or-null, as returned by searchParams.get). -/
structure QueryParams where
  code : Option String
  temp_token : Option String
  user : Option String
  error : Option String
  state : Option String
  deriving DecidableEq, Repr

/-- The JSON body of a successful POST /api/auth/google response:
access_token, optional refresh_token, and the user object (kept here as its
serialized form, since the client only ever re-serializes it). -/
structure AuthData where
  access_token : String
  refresh_token : Option String
  user : String
  deriving DecidableEq, Repr

/-- Outcome of a fetch to POST /api/auth/google as the client observes it:
an ok response with parsed data, a non-ok response whose parsed body has an
optional detail field, or a rejected fetch (network error) carrying the
thrown Error's message. -/
inductive AuthFetchOutcome where
  | ok (data : AuthData)
  | httpError (detail : Option String)
  | networkError (msg : String)
  deriving DecidableEq, Repr

/-- Whether an auth fetch outcome is a failure (non-ok or network error). -/
def AuthFetchOutcome.failed : AuthFetchOutcome → Bool
  | .ok _ => false
  | .httpError _ => true
  | .networkError _ => true

/-- The status state of the oauth-success page. -/
inductive PageStatus where
  | processing
  | success
  | error
  deriving DecidableEq, Repr

/-- Observable effects of one run of the oauth-success callback handler:
final status and message, the bodies POSTed to /api/auth/google in order,
the localStorage writes in order, and the navigation target (the delayed
router.push). -/
structure CallbackResult where
  status : PageStatus
  message : String
  requests : List JsonBody
  storage : List (String × String)
  nav : Option String
  deriving DecidableEq, Repr

/-- Body of the temp-token exchange request:
JSON.stringify({ temp_token: tempToken }). -/
def tempTokenBody (t : String) : JsonBody := [("temp_token", JsVal.str t)]

/-- Body of the legacy authorization-code exchange request:
JSON.stringify({ authorization_code: code, state: state }), where a null
state serializes to a JSON null field. -/
def authCodeBody (c : String) (st : Option String) : JsonBody :=
  [("authorization_code", JsVal.str c),
   ("state", match st with | none => JsVal.null | some s => JsVal.str s)]

/-- Body of the login page's credential exchange request:
JSON.stringify({ credential: response.credential }). -/
def credentialBody (c : String) : JsonBody := [("credential", JsVal.str c)]

/-- The localStorage writes the oauth-success page performs on an ok
exchange: access_token, refresh_token only if truthy (the source guards with
`if (data.refresh_token)`), then the serialized user. -/
def storeAuthData (d : AuthData) : List (String × String) :=
  [("access_token", d.access_token)] ++
    (match d.refresh_token with
     | some r => if r ≠ "" then [("refresh_token", r)] else []
     | none => []) ++
    [("user", d.user)]

/-- Shared shape of the two exchange branches of handleOAuthCallback: POST
the given body once; on ok store tokens, show the success message and
schedule a push to /chat; on a non-ok response show errorData.detail or the
branch's default message; on a network error show the branch's network
message. -/
def exchangeBranch (body : JsonBody) (outcome : AuthFetchOutcome)
    (okMsg defaultErrMsg netErrMsg : String) : CallbackResult :=
  match outcome with
  | .ok d =>
      { status := .success, message := okMsg, requests := [body],
        storage := storeAuthData d, nav := some "/chat" }
  | .httpError detail =>
      { status := .error,
        message := if jsTruthy detail then jsStr detail else defaultErrMsg,
        requests := [body], storage := [], nav := none }
  | .networkError _ =>
      { status := .error, message := netErrMsg,
        requests := [body], storage := [], nav := none }

/-- The oauth-success page's handleOAuthCallback: an error parameter wins,
then the temp-token flow, then the legacy authorization-code flow, then the
no-credentials error.  `fetch` models the backend's response to a given
request body. -/
def handleOAuthCallback (p : QueryParams)
    (fetch : JsonBody → AuthFetchOutcome) : CallbackResult :=
  if jsTruthy p.error then
    { status := .error,
      message := "Authentication failed: " ++ jsStr p.error,
      requests := [], storage := [], nav := none }
  else if jsTruthy p.temp_token then
    exchangeBranch (tempTokenBody (jsStr p.temp_token))
      (fetch (tempTokenBody (jsStr p.temp_token)))
      "Successfully authenticated via MCP server!"
      "MCP authentication failed"
      "Network error during MCP authentication"
  else if jsTruthy p.code then
    exchangeBranch (authCodeBody (jsStr p.code) p.state)
      (fetch (authCodeBody (jsStr p.code) p.state))
      "Successfully authenticated!"
      "Authentication failed"
      "Network error during authentication"
  else
    { status := .error,
      message := "No valid authentication credentials received",
      requests := [], storage := [], nav := none }

/-- Observable effects of one run of the login page's handleGoogleResponse:
final isLoading flag, the error state ("" when none), requests POSTed,
localStorage writes, and navigation. -/
structure LoginResult where
  isLoading : Bool
  error : String
  requests : List JsonBody
  storage : List (String × String)
  nav : Option String
  deriving DecidableEq, Repr

/-- The login page's handleGoogleResponse: POST the Google credential; on ok
store access_token, refresh_token (unconditionally — the source has no guard
here, so an absent field is stored as "undefined") and the user, then push
/chat; on a non-ok response throw detail or a default, caught below; on any
caught Error set the error state to its message.  isLoading is reset in the
finally block. -/
def handleGoogleResponse (credential : String)
    (fetch : JsonBody → AuthFetchOutcome) : LoginResult :=
  match fetch (credentialBody credential) with
  | .ok d =>
      { isLoading := false, error := "",
        requests := [credentialBody credential],
        storage := [("access_token", d.access_token),
                    ("refresh_token", jsUndefStr d.refresh_token),
                    ("user", d.user)],
        nav := some "/chat" }
  | .httpError detail =>
      { isLoading := false,
        error := if jsTruthy detail then jsStr detail else "Authentication failed",
        requests := [credentialBody credential], storage := [], nav := none }
  | .networkError msg =>
      { isLoading := false, error := msg,
        requests := [credentialBody credential], storage := [], nav := none }

/-- What the oauth-success page renders for each status: the processing
spinner, the success panel, or the error panel showing the message together
with a Try Again button whose onClick pushes /login. -/
structure OAuthView where
  showsSpinner : Bool
  showsSuccess : Bool
  errorMessage : Option String
  retryButton : Option String
  deriving DecidableEq, Repr

/-- Render function of the oauth-success page, by status branch. -/
def oauthSuccessView (status : PageStatus) (message : String) : OAuthView :=
  match status with
  | .processing =>
      { showsSpinner := true, showsSuccess := false,
        errorMessage := none, retryButton := none }
  | .success =>
      { showsSpinner := false, showsSuccess := true,
        errorMessage := none, retryButton := none }
  | .error =>
      { showsSpinner := false, showsSuccess := false,
        errorMessage := some message, retryButton := some "/login" }

/-- What the login page renders: the error box (shown when the error state
is non-empty) and the Continue-with-Google button, disabled while loading or
until Google Identity Services has loaded.  Clicking that button re-runs the
sign-in prompt, so it is the retry affordance. -/
structure LoginView where
  errorBox : Option String
  signInButtonDisabled : Bool
  deriving DecidableEq, Repr

/-- Render function of the login page's sign-in card. -/
def loginView (error : String) (isLoading isGoogleLoaded : Bool) : LoginView :=
  { errorBox := if error ≠ "" then some error else none,
    signInButtonDisabled := isLoading || !isGoogleLoaded }

/-- Modelled from the spec: the backend GET /api/auth/google-config endpoint
is not among the provided sources; per the spec it "returns
`\x7bclient_id\x7d` (the identity provider's public client identifier; no
secret)" — a one-field JSON object. -/
def googleConfigResponse (client_id : String) : JsonBody :=
  [("client_id", JsVal.str client_id)]

/-- The login page's fetchClientId: reads data.client_id from the parsed
google-config response body. -/
def fetchClientId (resp : JsonBody) : Option String :=
  match resp.lookup "client_id" with
  | some (JsVal.str s) => some s
  | _ => none

/-- The configuration object the login page passes to
window.google.accounts.id.initialize. -/
structure GoogleInitConfig where
  client_id : String
  auto_select : Bool
  cancel_on_tap_outside : Bool
  deriving DecidableEq, Repr

/-- The login page's initializeGoogle: initializes Google Identity Services
with the fetched client id and fixed flags. -/
def initializeGoogle (clientId : String) : GoogleInitConfig :=
  { client_id := clientId, auto_select := false, cancel_on_tap_outside := false }

/-- Message roles of the chat page's ChatMessage union type. -/
inductive Role where
  | user
  | assistant
  deriving DecidableEq, Repr

/-- The chat page's ChatMessage record. -/
structure ChatMessage where
  id : String
  content : String
  role : Role
  timestamp : String
  deriving DecidableEq, Repr

/-- The chat page's component state relevant to sendMessage. -/
structure ChatState where
  messages : List ChatMessage
  input : String
  isLoading : Bool
  chatId : String
  accessToken : Option String
  deriving DecidableEq, Repr

/-- One POST /api/ai/chat request: the Authorization header value and the
body fields message, chat_id and context (always the empty object). -/
structure ChatRequest where
  authHeader : String
  message : String
  chat_id : String
  context : JsonBody
  deriving DecidableEq, Repr

/-- Outcome of a fetch to POST /api/ai/chat as the client observes it: an ok
response with message_id and response fields, a non-ok response with its
HTTP status, or a rejected fetch carrying the thrown Error's message. -/
inductive ChatFetchOutcome where
  | ok (message_id : String) (response : String)
  | httpError (status : Nat)
  | networkError (msg : String)
  deriving DecidableEq, Repr

/-- Whether a chat fetch outcome is a failure. -/
def ChatFetchOutcome.failed : ChatFetchOutcome → Bool
  | .ok _ _ => false
  | .httpError _ => true
  | .networkError _ => true

/-- Message of the Error thrown on a non-ok chat response. -/
def httpErrorMessage (status : Nat) : String :=
  "HTTP error! status: " ++ toString status

/-- Content of the assistant-role error entry appended by sendMessage's
catch block. -/
def chatErrorContent (emsg : String) : String :=
  "Sorry, I encountered an error: " ++ emsg ++
    ". Make sure the server is running on http://localhost:8000"

/-- Observable effects of one run of sendMessage: the new component state,
the requests POSTed to /api/ai/chat in order, and the navigation target
(sendMessage never navigates; navigation is modelled so that its absence is
expressible). -/
structure SendResult where
  state : ChatState
  requests : List ChatRequest
  nav : Option String
  deriving DecidableEq, Repr

/-- The user-role entry sendMessage appends first: id msg_ followed by the
Date.now() reading, content the trimmed input. -/
def userMessageOf (s : ChatState) (now ts : String) : ChatMessage :=
  { id := "msg_" ++ now, content := jsTrim s.input, role := .user, timestamp := ts }

/-- The POST /api/ai/chat request sendMessage issues: a Bearer header built
from the accessToken state (the template literal prints null as "null") and
the body fields message (the user entry's content), chat_id and an empty
context object. -/
def chatRequestOf (s : ChatState) : ChatRequest :=
  { authHeader := "Bearer " ++ jsStr s.accessToken,
    message := jsTrim s.input, chat_id := s.chatId, context := [] }

/-- The second entry sendMessage appends, by fetch outcome: on ok, the
assistant reply with the response's message_id and response fields; on a
non-ok status, the catch block's assistant entry wrapping the thrown
HTTP-error message; on a rejected fetch, the same wrapping of the Error's
message. -/
def assistantReply (now ts : String) (o : ChatFetchOutcome) : ChatMessage :=
  match o with
  | .ok mid resp =>
      { id := mid, content := resp, role := .assistant, timestamp := ts }
  | .httpError status =>
      { id := "error_" ++ now, content := chatErrorContent (httpErrorMessage status),
        role := .assistant, timestamp := ts }
  | .networkError emsg =>
      { id := "error_" ++ now, content := chatErrorContent emsg,
        role := .assistant, timestamp := ts }

/-- The chat page's sendMessage.  `now` stands for the Date.now() reading
used in generated ids and `ts` for the ISO timestamp.  A no-op when the
trimmed input is empty (falsy) or a request is already in flight; otherwise
it appends the user entry, clears the input, sends exactly one authenticated
request, appends the assistant reply or the catch block's assistant-role
error entry, and resets isLoading in the finally block. -/
def sendMessage (s : ChatState) (fetch : ChatRequest → ChatFetchOutcome)
    (now ts : String) : SendResult :=
  if jsTrim s.input = "" || s.isLoading then
    { state := s, requests := [], nav := none }
  else
    { state := { s with
        messages := s.messages ++ [userMessageOf s now ts]
          ++ [assistantReply now ts (fetch (chatRequestOf s))],
        input := "", isLoading := false },
      requests := [chatRequestOf s], nav := none }

/-- The stored values the chat page's mount effect reads. -/
structure LocalStore where
  access_token : Option String
  user : Option String
  deriving DecidableEq, Repr

/-- Navigation decided by the chat page's mount-time auth check: push /login
unless both a token and user data are stored. -/
def chatAuthCheckNav (store : LocalStore) : Option String :=
  if !jsTruthy store.access_token || !jsTruthy store.user then some "/login"
  else none

/-- Whatever the fetch outcome, an exchange branch POSTs exactly its body. -/
theorem exchangeBranch_requests (body : JsonBody) (o : AuthFetchOutcome)
    (m1 m2 m3 : String) : (exchangeBranch body o m1 m2 m3).requests = [body] := by
  cases o <;> rfl

/-- A failing fetch outcome leaves an exchange branch in the error state with
no storage writes. -/
theorem exchangeBranch_failed (body : JsonBody) (o : AuthFetchOutcome)
    (m1 m2 m3 : String) (h : o.failed = true) :
    (exchangeBranch body o m1 m2 m3).status = .error ∧
    (exchangeBranch body o m1 m2 m3).storage = [] := by
  cases o with
  | ok d => simp [AuthFetchOutcome.failed] at h
  | httpError detail => exact ⟨rfl, rfl⟩
  | networkError msg => exact ⟨rfl, rfl⟩

/-- The callback handler's request list is one of the three branch outcomes. -/
theorem handleOAuthCallback_requests (p : QueryParams)
    (f : JsonBody → AuthFetchOutcome) :
    (handleOAuthCallback p f).requests = [] ∨
    (handleOAuthCallback p f).requests = [tempTokenBody (jsStr p.temp_token)] ∨
    (handleOAuthCallback p f).requests = [authCodeBody (jsStr p.code) p.state] := by
  unfold handleOAuthCallback
  by_cases he : jsTruthy p.error = true
  · simp [he]
  · by_cases ht : jsTruthy p.temp_token = true
    · simp [he, ht, exchangeBranch_requests]
    · by_cases hc : jsTruthy p.code = true
      · simp [he, ht, hc, exchangeBranch_requests]
      · simp [he, ht, hc]

/-- C1 (counterexample): the claim quantifies over every callback URL
containing both temp_token and code parameters, but with an empty-valued
temp_token parameter (falsy in JavaScript) the handler takes the legacy
authorization-code path and the single POST body is
the authorization-code shape, not the temp-token shape. -/
theorem C1_counterexample :
    (QueryParams.mk (some "c") (some "") none none none).temp_token.isSome = true ∧
    (QueryParams.mk (some "c") (some "") none none none).code.isSome = true ∧
    (handleOAuthCallback (QueryParams.mk (some "c") (some "") none none none)
        (fun _ => .networkError "down")).requests = [authCodeBody "c" none] :=
  ⟨rfl, rfl, rfl⟩

/-- C1 (amended): for every callback URL with a non-empty temp_token
parameter, a code parameter, and no non-empty error parameter, exactly one
POST /api/auth/google request is sent, its body is the temp-token shape, and
that body is never the authorization-code shape. -/
theorem C1_temp_token_precedence (p : QueryParams)
    (f : JsonBody → AuthFetchOutcome) (t : String)
    (he : jsTruthy p.error = false) (ht : p.temp_token = some t) (ht2 : t ≠ "")
    (_hc : p.code.isSome = true) :
    (handleOAuthCallback p f).requests = [tempTokenBody t] ∧
    ∀ c st, tempTokenBody t ≠ authCodeBody c st := by
  constructor
  · have hT : jsTruthy p.temp_token = true := by rw [ht]; simp [jsTruthy, ht2]
    have hS : jsStr p.temp_token = t := by rw [ht]; rfl
    unfold handleOAuthCallback
    simp only [he, hT, hS, Bool.false_eq_true, if_false, if_true]
    exact exchangeBranch_requests _ _ _ _ _
  · intro c st h
    simp [tempTokenBody, authCodeBody] at h

/-- C1 (witness): the amended theorem applied to a concrete callback URL
carrying both a temp token and an authorization code. -/
theorem C1_witness :
    (handleOAuthCallback (QueryParams.mk (some "c") (some "tt") none none (some "st"))
        (fun _ => .ok (AuthData.mk "a" none "u"))).requests = [tempTokenBody "tt"] ∧
    ∀ c st, tempTokenBody "tt" ≠ authCodeBody c st :=
  C1_temp_token_precedence _ _ "tt" rfl rfl (by decide) rfl

/-- C2: every request body the client sends to POST /api/auth/google has one
of the three accepted shapes, and the page determines which: the
oauth-success handler sends only temp-token or authorization-code-with-state
bodies, and the login page's credential handler sends only credential
bodies.  The three key lists are pairwise distinct, so each body has exactly
one of the shapes. -/
theorem C2_auth_request_shapes (p : QueryParams) (cred : String)
    (f g : JsonBody → AuthFetchOutcome) :
    (∀ b ∈ (handleOAuthCallback p f).requests,
        bodyKeys b = ["temp_token"] ∨ bodyKeys b = ["authorization_code", "state"]) ∧
    (∀ b ∈ (handleGoogleResponse cred g).requests, bodyKeys b = ["credential"]) := by
  constructor
  · intro b hb
    rcases handleOAuthCallback_requests p f with h | h | h <;> rw [h] at hb
    · simp at hb
    · simp at hb
      subst hb
      left
      rfl
    · simp at hb
      subst hb
      right
      cases p.state <;> rfl
  · intro b hb
    cases hg : g (credentialBody cred) <;>
      simp [handleGoogleResponse, hg] at hb <;> simp [hb, bodyKeys, credentialBody]

/-- C2 (witness): the shape theorem applied to a concrete temp-token
callback, at the one request it sends. -/
theorem C2_witness :
    bodyKeys (tempTokenBody "tt") = ["temp_token"] ∨
    bodyKeys (tempTokenBody "tt") = ["authorization_code", "state"] :=
  (C2_auth_request_shapes (QueryParams.mk none (some "tt") none none none) "cred"
      (fun _ => .networkError "down") (fun _ => .networkError "down")).1
    (tempTokenBody "tt") (by decide)

/-- C9 (counterexample): the claim says any callback URL containing an error
query parameter enters the error state with no request, but an empty-valued
error parameter is falsy in JavaScript, so with error empty and a temp token
present the handler does send an exchange request. -/
theorem C9_counterexample :
    (QueryParams.mk none (some "t") none (some "") none).error.isSome = true ∧
    (handleOAuthCallback (QueryParams.mk none (some "t") none (some "") none)
        (fun _ => .networkError "down")).requests = [tempTokenBody "t"] :=
  ⟨rfl, rfl⟩

/-- C9 (amended): if the callback URL carries a non-empty error parameter,
or neither a non-empty temp_token nor a non-empty code parameter, the
handler ends in the error state having sent no request and written nothing
to local storage. -/
theorem C9_invalid_params_no_request (p : QueryParams)
    (f : JsonBody → AuthFetchOutcome)
    (h : jsTruthy p.error = true ∨
      (jsTruthy p.temp_token = false ∧ jsTruthy p.code = false)) :
    (handleOAuthCallback p f).status = .error ∧
    (handleOAuthCallback p f).requests = [] ∧
    (handleOAuthCallback p f).storage = [] := by
  unfold handleOAuthCallback
  rcases h with h | ⟨h1, h2⟩
  · simp [h]
  · by_cases he : jsTruthy p.error = true <;> simp [he, h1, h2]

/-- C9 (witness): the amended theorem applied to a concrete callback URL
with a non-empty error parameter. -/
theorem C9_witness :
    (handleOAuthCallback (QueryParams.mk none none none (some "access_denied") none)
        (fun _ => .networkError "down")).status = .error ∧
    (handleOAuthCallback (QueryParams.mk none none none (some "access_denied") none)
        (fun _ => .networkError "down")).requests = [] ∧
    (handleOAuthCallback (QueryParams.mk none none none (some "access_denied") none)
        (fun _ => .networkError "down")).storage = [] :=
  C9_invalid_params_no_request _ _ (Or.inl (by decide))

/-- Helper: sendMessage reduces to its explicit run when the trimmed input
is non-empty and no request is in flight. -/
theorem sendMessage_run (s : ChatState) (f : ChatRequest → ChatFetchOutcome)
    (now ts : String) (hin : jsTrim s.input ≠ "") (hload : s.isLoading = false) :
    sendMessage s f now ts =
      SendResult.mk
        { s with
          messages := s.messages ++ [userMessageOf s now ts]
            ++ [assistantReply now ts (f (chatRequestOf s))],
          input := "", isLoading := false }
        [chatRequestOf s] none := by
  unfold sendMessage
  simp [hin, hload]

/-- Helper: the guard makes sendMessage a no-op. -/
theorem sendMessage_stop (s : ChatState) (f : ChatRequest → ChatFetchOutcome)
    (now ts : String) (h : jsTrim s.input = "" ∨ s.isLoading = true) :
    sendMessage s f now ts = SendResult.mk s [] none := by
  unfold sendMessage
  rcases h with h | h <;> simp [h]

/-- Helper: the second appended entry always carries the assistant role. -/
theorem assistantReply_role (now ts : String) (o : ChatFetchOutcome) :
    (assistantReply now ts o).role = .assistant := by
  cases o <;> rfl

/-- C3: a chat turn sends exactly one POST /api/ai/chat request whose
Authorization header is Bearer followed by the stored access token and whose
body fields are the trimmed message, the chat id and an empty context; on an
ok response exactly one assistant entry is appended after the user entry,
with the response's message_id as its id and its response field as its
content. -/
theorem C3_chat_turn (s : ChatState) (f : ChatRequest → ChatFetchOutcome)
    (now ts tok mid resp : String)
    (hin : jsTrim s.input ≠ "") (hload : s.isLoading = false)
    (htok : s.accessToken = some tok)
    (hok : f (chatRequestOf s) = .ok mid resp) :
    (sendMessage s f now ts).requests =
      [ChatRequest.mk ("Bearer " ++ tok) (jsTrim s.input) s.chatId []] ∧
    (sendMessage s f now ts).state.messages =
      s.messages ++
        [ChatMessage.mk ("msg_" ++ now) (jsTrim s.input) .user ts,
         ChatMessage.mk mid resp .assistant ts] := by
  rw [sendMessage_run s f now ts hin hload]
  constructor
  · simp [chatRequestOf, htok, jsStr]
  · simp [userMessageOf, hok, assistantReply]

/-- C3 (witness): a concrete chat turn against a backend that replies ok. -/
theorem C3_witness :
    (sendMessage (ChatState.mk [] " hello " false "chat_1" (some "tok"))
        (fun _ => .ok "m1" "hi there") "99" "t0").requests =
      [ChatRequest.mk "Bearer tok" "hello" "chat_1" []] ∧
    (sendMessage (ChatState.mk [] " hello " false "chat_1" (some "tok"))
        (fun _ => .ok "m1" "hi there") "99" "t0").state.messages =
      [ChatMessage.mk "msg_99" "hello" .user "t0",
       ChatMessage.mk "m1" "hi there" .assistant "t0"] :=
  C3_chat_turn (ChatState.mk [] " hello " false "chat_1" (some "tok"))
    (fun _ => .ok "m1" "hi there") "99" "t0" "tok" "m1" "hi there"
    (by decide) rfl rfl rfl

/-- C4 (counterexample): a /api/ai/chat request failing with HTTP 401 (a
session expired mid-turn) does not make the client navigate anywhere, let
alone to the login page: the turn ends with an assistant error entry and no
navigation. -/
theorem C4_counterexample :
    (sendMessage (ChatState.mk [] "hi" false "chat_1" (some "stale"))
        (fun _ => .httpError 401) "7" "t0").nav = none ∧
    (sendMessage (ChatState.mk [] "hi" false "chat_1" (some "stale"))
        (fun _ => .httpError 401) "7" "t0").state.messages.length = 2 :=
  ⟨rfl, rfl⟩

/-- C4 (amended): session validation failure at page load (missing or empty
stored token or user data) navigates to the login page; a session failure
surfacing as a failed /api/ai/chat response mid-conversation does not
navigate, but is surfaced as an assistant-role error entry. -/
theorem C4_session_expiry_redirect (store : LocalStore) (s : ChatState)
    (f : ChatRequest → ChatFetchOutcome) (now ts : String) (status : Nat)
    (hstore : jsTruthy store.access_token = false ∨ jsTruthy store.user = false)
    (hin : jsTrim s.input ≠ "") (hload : s.isLoading = false)
    (hf : f (chatRequestOf s) = .httpError status) :
    chatAuthCheckNav store = some "/login" ∧
    (sendMessage s f now ts).nav = none ∧
    (sendMessage s f now ts).state.messages =
      s.messages ++
        [ChatMessage.mk ("msg_" ++ now) (jsTrim s.input) .user ts,
         ChatMessage.mk ("error_" ++ now)
           (chatErrorContent (httpErrorMessage status)) .assistant ts] := by
  refine ⟨?_, ?_, ?_⟩
  · unfold chatAuthCheckNav
    rcases hstore with h | h <;> simp [h]
  · rw [sendMessage_run s f now ts hin hload]
  · rw [sendMessage_run s f now ts hin hload]
    simp [userMessageOf, hf, assistantReply]

/-- C4 (witness): the amended theorem at a concrete empty store and a
concrete turn failing with HTTP 401. -/
theorem C4_witness :
    chatAuthCheckNav (LocalStore.mk none none) = some "/login" ∧
    (sendMessage (ChatState.mk [] "hi" false "chat_1" (some "stale"))
        (fun _ => .httpError 401) "7" "t0").nav = none ∧
    (sendMessage (ChatState.mk [] "hi" false "chat_1" (some "stale"))
        (fun _ => .httpError 401) "7" "t0").state.messages =
      [ChatMessage.mk "msg_7" "hi" .user "t0",
       ChatMessage.mk "error_7"
         (chatErrorContent (httpErrorMessage 401)) .assistant "t0"] :=
  C4_session_expiry_redirect (LocalStore.mk none none)
    (ChatState.mk [] "hi" false "chat_1" (some "stale"))
    (fun _ => .httpError 401) "7" "t0" 401 (Or.inl rfl) (by decide) rfl rfl

/-- C6: when the chat fetch fails (non-ok status or network error), the
handler catches it and appends exactly one assistant-role entry, whose
content wraps the error message, after the user entry; the loading state is
cleared and no navigation or uncaught failure escapes. -/
theorem C6_error_as_assistant_entry (s : ChatState)
    (f : ChatRequest → ChatFetchOutcome) (now ts : String)
    (hin : jsTrim s.input ≠ "") (hload : s.isLoading = false)
    (hfail : (f (chatRequestOf s)).failed = true) :
    (sendMessage s f now ts).state.isLoading = false ∧
    (sendMessage s f now ts).nav = none ∧
    ∃ emsg, (sendMessage s f now ts).state.messages =
      s.messages ++
        [ChatMessage.mk ("msg_" ++ now) (jsTrim s.input) .user ts,
         ChatMessage.mk ("error_" ++ now) (chatErrorContent emsg) .assistant ts] := by
  rw [sendMessage_run s f now ts hin hload]
  refine ⟨rfl, rfl, ?_⟩
  cases ho : f (chatRequestOf s) with
  | ok mid resp =>
      rw [ho] at hfail
      simp [ChatFetchOutcome.failed] at hfail
  | httpError status =>
      exact ⟨httpErrorMessage status, by simp [userMessageOf, ho, assistantReply]⟩
  | networkError emsg =>
      exact ⟨emsg, by simp [userMessageOf, ho, assistantReply]⟩

/-- C6 (witness): a concrete turn whose fetch rejects with a network
error. -/
theorem C6_witness :
    (sendMessage (ChatState.mk [] "hi" false "chat_1" (some "tok"))
        (fun _ => .networkError "Failed to fetch") "7" "t0").state.isLoading = false ∧
    (sendMessage (ChatState.mk [] "hi" false "chat_1" (some "tok"))
        (fun _ => .networkError "Failed to fetch") "7" "t0").nav = none ∧
    ∃ emsg, (sendMessage (ChatState.mk [] "hi" false "chat_1" (some "tok"))
        (fun _ => .networkError "Failed to fetch") "7" "t0").state.messages =
      [] ++
        [ChatMessage.mk "msg_7" "hi" .user "t0",
         ChatMessage.mk "error_7" (chatErrorContent emsg) .assistant "t0"] :=
  C6_error_as_assistant_entry (ChatState.mk [] "hi" false "chat_1" (some "tok"))
    (fun _ => .networkError "Failed to fetch") "7" "t0" (by decide) rfl rfl

/-- C10: sendMessage is a no-op (same state, no request, no navigation) when
the trimmed input is empty or a request is in flight; it sends at most one
request, only ever from a non-loading state with non-empty trimmed input;
and every user-role entry it adds to the transcript has non-empty
content. -/
theorem C10_sendMessage_guards (s : ChatState)
    (f : ChatRequest → ChatFetchOutcome) (now ts : String) :
    (s.isLoading = true →
      sendMessage s f now ts = SendResult.mk s [] none) ∧
    (jsTrim s.input = "" →
      sendMessage s f now ts = SendResult.mk s [] none) ∧
    (sendMessage s f now ts).requests.length ≤ 1 ∧
    ((sendMessage s f now ts).requests ≠ [] →
      s.isLoading = false ∧ jsTrim s.input ≠ "") ∧
    (∀ m ∈ (sendMessage s f now ts).state.messages,
        m ∉ s.messages → m.role = .user → m.content ≠ "") := by
  by_cases hin : jsTrim s.input = ""
  · rw [sendMessage_stop s f now ts (Or.inl hin)]
    refine ⟨fun _ => rfl, fun _ => rfl, by simp, by simp, ?_⟩
    intro m hm hnot _
    exact absurd hm hnot
  · by_cases hload : s.isLoading = true
    · rw [sendMessage_stop s f now ts (Or.inr hload)]
      refine ⟨fun _ => rfl, fun _ => rfl, by simp, by simp, ?_⟩
      intro m hm hnot _
      exact absurd hm hnot
    · have hload2 : s.isLoading = false := by
        cases h : s.isLoading
        · rfl
        · exact absurd h hload
      rw [sendMessage_run s f now ts hin hload2]
      refine ⟨fun h => absurd h hload, fun h => absurd h hin, by simp,
        fun _ => ⟨hload2, hin⟩, ?_⟩
      intro m hm hnot hrole
      simp at hm
      rcases hm with hm | hm | hm
      · exact absurd hm hnot
      · rw [hm]
        exact hin
      · rw [hm] at hrole
        rw [assistantReply_role] at hrole
        simp at hrole

/-- C10 (witness): the guard theorem applied at three concrete states — one
with a request in flight, one with whitespace-only input, and one that
actually sends — discharging each of its guards. -/
theorem C10_witness :
    sendMessage (ChatState.mk [] "hi" true "c" (some "tok"))
        (fun _ => .ok "m" "r") "1" "t0" =
      SendResult.mk (ChatState.mk [] "hi" true "c" (some "tok")) [] none ∧
    sendMessage (ChatState.mk [] "  " false "c" (some "tok"))
        (fun _ => .ok "m" "r") "1" "t0" =
      SendResult.mk (ChatState.mk [] "  " false "c" (some "tok")) [] none ∧
    (sendMessage (ChatState.mk [] "hi" false "c" (some "tok"))
        (fun _ => .ok "m" "r") "1" "t0").requests.length ≤ 1 :=
  ⟨(C10_sendMessage_guards (ChatState.mk [] "hi" true "c" (some "tok"))
      (fun _ => .ok "m" "r") "1" "t0").1 rfl,
   (C10_sendMessage_guards (ChatState.mk [] "  " false "c" (some "tok"))
      (fun _ => .ok "m" "r") "1" "t0").2.1 (by decide),
   (C10_sendMessage_guards (ChatState.mk [] "hi" false "c" (some "tok"))
      (fun _ => .ok "m" "r") "1" "t0").2.2.1⟩

/-- Helper: when the backend answers every exchange with the same ok data,
any callback run that POSTed at all performed exactly the guarded storage
writes of that data. -/
theorem handleOAuthCallback_ok_storage (p : QueryParams)
    (f : JsonBody → AuthFetchOutcome) (d : AuthData)
    (hf : ∀ b, f b = .ok d)
    (hreq : (handleOAuthCallback p f).requests ≠ []) :
    (handleOAuthCallback p f).storage = storeAuthData d := by
  unfold handleOAuthCallback at hreq ⊢
  by_cases he : jsTruthy p.error = true
  · simp [he] at hreq
  · by_cases ht : jsTruthy p.temp_token = true
    · simp [he, ht, exchangeBranch, hf]
    · by_cases hc : jsTruthy p.code = true
      · simp [he, ht, hc, exchangeBranch, hf]
      · simp [he, ht, hc] at hreq

/-- Helper: when the backend fails every exchange, the callback always ends
in the error state with no storage writes. -/
theorem handleOAuthCallback_all_failed (p : QueryParams)
    (f : JsonBody → AuthFetchOutcome)
    (hf : ∀ b, (f b).failed = true) :
    (handleOAuthCallback p f).status = .error ∧
    (handleOAuthCallback p f).storage = [] := by
  unfold handleOAuthCallback
  by_cases he : jsTruthy p.error = true
  · simp [he]
  · by_cases ht : jsTruthy p.temp_token = true
    · rw [if_neg he, if_pos ht]
      exact exchangeBranch_failed _ _ _ _ _ (hf _)
    · by_cases hc : jsTruthy p.code = true
      · rw [if_neg he, if_neg ht, if_pos hc]
        exact exchangeBranch_failed _ _ _ _ _ (hf _)
      · rw [if_neg he, if_neg ht, if_neg hc]
        exact ⟨rfl, rfl⟩

/-- C5 (counterexample): on the credential path the login page stores the
refresh_token field even when it is absent from the response — the write to
local storage happens unconditionally, recording the string "undefined". -/
theorem C5_counterexample :
    (handleGoogleResponse "cred"
        (fun _ => .ok (AuthData.mk "at" none "u"))).storage =
      [("access_token", "at"), ("refresh_token", "undefined"), ("user", "u")] :=
  rfl

/-- C5 (amended): on every successful exchange the client stores
access_token and user; on the temp-token and authorization-code paths
refresh_token is stored only when the field is present (and non-empty, per
the JavaScript truthiness guard); on the credential path the login page
stores the refresh_token field unconditionally, writing "undefined" when it
is absent. -/
theorem C5_refresh_token_storage (p : QueryParams)
    (f g : JsonBody → AuthFetchOutcome) (d e : AuthData) (cred : String)
    (hf : ∀ b, f b = .ok d) (hg : ∀ b, g b = .ok e)
    (hreq : (handleOAuthCallback p f).requests ≠ []) :
    ("access_token", d.access_token) ∈ (handleOAuthCallback p f).storage ∧
    ("user", d.user) ∈ (handleOAuthCallback p f).storage ∧
    (∀ v, ("refresh_token", v) ∈ (handleOAuthCallback p f).storage →
        d.refresh_token = some v ∧ v ≠ "") ∧
    ("access_token", e.access_token) ∈ (handleGoogleResponse cred g).storage ∧
    ("user", e.user) ∈ (handleGoogleResponse cred g).storage ∧
    ("refresh_token", jsUndefStr e.refresh_token) ∈
      (handleGoogleResponse cred g).storage := by
  rw [handleOAuthCallback_ok_storage p f d hf hreq]
  refine ⟨by simp [storeAuthData], by simp [storeAuthData], ?_, ?_, ?_, ?_⟩
  · intro v hv
    cases hd : d.refresh_token with
    | none => simp [storeAuthData, hd] at hv
    | some r =>
        by_cases hr : r = ""
        · simp [storeAuthData, hd, hr] at hv
        · simp [storeAuthData, hd, hr] at hv
          subst hv
          exact ⟨rfl, hr⟩
  · simp [handleGoogleResponse, hg]
  · simp [handleGoogleResponse, hg]
  · simp [handleGoogleResponse, hg]

/-- C5 (witness): the amended theorem at a concrete temp-token callback whose
exchange returns no refresh token, and a concrete credential login whose
exchange returns one. -/
theorem C5_witness :
    ("access_token", "at1") ∈
      (handleOAuthCallback (QueryParams.mk none (some "tt") none none none)
        (fun _ => .ok (AuthData.mk "at1" none "u1"))).storage ∧
    ("user", "u1") ∈
      (handleOAuthCallback (QueryParams.mk none (some "tt") none none none)
        (fun _ => .ok (AuthData.mk "at1" none "u1"))).storage ∧
    (∀ v, ("refresh_token", v) ∈
        (handleOAuthCallback (QueryParams.mk none (some "tt") none none none)
          (fun _ => .ok (AuthData.mk "at1" none "u1"))).storage →
        (AuthData.mk "at1" none "u1").refresh_token = some v ∧ v ≠ "") ∧
    ("access_token", "at2") ∈
      (handleGoogleResponse "cred"
        (fun _ => .ok (AuthData.mk "at2" (some "rt2") "u2"))).storage ∧
    ("user", "u2") ∈
      (handleGoogleResponse "cred"
        (fun _ => .ok (AuthData.mk "at2" (some "rt2") "u2"))).storage ∧
    ("refresh_token", jsUndefStr (some "rt2")) ∈
      (handleGoogleResponse "cred"
        (fun _ => .ok (AuthData.mk "at2" (some "rt2") "u2"))).storage :=
  C5_refresh_token_storage (QueryParams.mk none (some "tt") none none none)
    (fun _ => .ok (AuthData.mk "at1" none "u1"))
    (fun _ => .ok (AuthData.mk "at2" (some "rt2") "u2"))
    (AuthData.mk "at1" none "u1") (AuthData.mk "at2" (some "rt2") "u2") "cred"
    (fun _ => rfl) (fun _ => rfl) (by decide)

/-- C7: when the backend rejects the exchange (provider error, 4xx or
network failure), the oauth-success page ends in the error state with no
token stored and renders the message with a Try Again button targeting
/login, and the login page ends not-loading with no token stored, rendering
the error box together with a re-enabled sign-in button. -/
theorem C7_retry_affordance (p : QueryParams)
    (f g : JsonBody → AuthFetchOutcome) (cred : String)
    (hf : ∀ b, (f b).failed = true)
    (hg : ∀ b, (g b).failed = true)
    (hmsg : (handleGoogleResponse cred g).error ≠ "") :
    (handleOAuthCallback p f).status = .error ∧
    (handleOAuthCallback p f).storage = [] ∧
    (oauthSuccessView .error (handleOAuthCallback p f).message).errorMessage =
      some (handleOAuthCallback p f).message ∧
    (oauthSuccessView .error (handleOAuthCallback p f).message).retryButton =
      some "/login" ∧
    (handleGoogleResponse cred g).isLoading = false ∧
    (handleGoogleResponse cred g).storage = [] ∧
    (loginView (handleGoogleResponse cred g).error
        (handleGoogleResponse cred g).isLoading true).errorBox =
      some (handleGoogleResponse cred g).error ∧
    (loginView (handleGoogleResponse cred g).error
        (handleGoogleResponse cred g).isLoading true).signInButtonDisabled =
      false := by
  obtain ⟨hs, hst⟩ := handleOAuthCallback_all_failed p f hf
  have hlog : (handleGoogleResponse cred g).isLoading = false ∧
      (handleGoogleResponse cred g).storage = [] := by
    cases hgo : g (credentialBody cred) with
    | ok d =>
        have hx := hg (credentialBody cred)
        rw [hgo] at hx
        simp [AuthFetchOutcome.failed] at hx
    | httpError detail => simp [handleGoogleResponse, hgo]
    | networkError m => simp [handleGoogleResponse, hgo]
  refine ⟨hs, hst, rfl, rfl, hlog.1, hlog.2, ?_, ?_⟩
  · simp [loginView, hmsg]
  · simp [loginView, hlog.1]

/-- C7 (witness): a concrete provider-denied callback and a concrete login
rejected with a 4xx detail. -/
theorem C7_witness :
    (handleOAuthCallback (QueryParams.mk none none none (some "denied") none)
        (fun _ => .networkError "down")).status = .error ∧
    (handleOAuthCallback (QueryParams.mk none none none (some "denied") none)
        (fun _ => .networkError "down")).storage = [] ∧
    (oauthSuccessView .error
        (handleOAuthCallback (QueryParams.mk none none none (some "denied") none)
          (fun _ => .networkError "down")).message).errorMessage =
      some (handleOAuthCallback (QueryParams.mk none none none (some "denied") none)
        (fun _ => .networkError "down")).message ∧
    (oauthSuccessView .error
        (handleOAuthCallback (QueryParams.mk none none none (some "denied") none)
          (fun _ => .networkError "down")).message).retryButton = some "/login" ∧
    (handleGoogleResponse "cred" (fun _ => .httpError (some "bad"))).isLoading =
      false ∧
    (handleGoogleResponse "cred" (fun _ => .httpError (some "bad"))).storage = [] ∧
    (loginView (handleGoogleResponse "cred" (fun _ => .httpError (some "bad"))).error
        (handleGoogleResponse "cred" (fun _ => .httpError (some "bad"))).isLoading
        true).errorBox =
      some (handleGoogleResponse "cred" (fun _ => .httpError (some "bad"))).error ∧
    (loginView (handleGoogleResponse "cred" (fun _ => .httpError (some "bad"))).error
        (handleGoogleResponse "cred" (fun _ => .httpError (some "bad"))).isLoading
        true).signInButtonDisabled = false :=
  C7_retry_affordance (QueryParams.mk none none none (some "denied") none)
    (fun _ => .networkError "down") (fun _ => .httpError (some "bad")) "cred"
    (fun _ => rfl) (fun _ => rfl) (by decide)

/-- C8: the google-config response is a one-field object carrying only the
public client identifier, the login page's fetchClientId extracts exactly
that field, and initializeGoogle passes it unchanged (with prompt
auto-select and tap-outside-cancel both off) to Google Identity Services. -/
theorem C8_google_config_client_id (cid : String) :
    bodyKeys (googleConfigResponse cid) = ["client_id"] ∧
    fetchClientId (googleConfigResponse cid) = some cid ∧
    (initializeGoogle cid).client_id = cid ∧
    (initializeGoogle cid).auto_select = false ∧
    (initializeGoogle cid).cancel_on_tap_outside = false :=
  ⟨rfl, rfl, rfl, rfl, rfl⟩

end Rituo
